import Mathlib

/-!
Verification of the Parallax controller (`src/unnamed/part_000`).

The module is a DOM-synchronization routine.  We embed it shallowly:

* DOM nodes are identifiers (`NodeId := Nat`).
* CSS transform strings are the structured values the source builds
  (`translatey(...px)`, `translate3d(...px, 0, 0)`, the cleared string, and a
  string containing `NaN`, which the source produces when it computes with
  `undefined` geometry).
* The mutable DOM and module state (the `matrix`, per-node styles, the parent
  of each media wrapper, the children of the `[data-parallax-host]` element,
  which nodes the root `element` still contains, and the overlay slot that
  `parallaxHost.querySelector('[data-parallax-item][data-parallax-id=...]')`
  would return for each original node) is threaded explicitly as `PState`.
* Code that can throw a `TypeError` (property access on `null`/`undefined`)
  returns `Except String _`.
* External per-call readings (`getBoundingClientRect`/offset sizes,
  `scrollTop`, `window.innerHeight`) are an `Env`.
* Calls into the external `ImageLoader` collaborator and
  `classList.add('loaded')` are recorded in an effect log.
-/

namespace Parallax

abbrev NodeId := Nat

/-- `const parallaxOffset = 500;` (source line 6). -/
def parallaxOffset : ℚ := 500

/-- A CSS transform value as the source writes it.  `invalid` stands for a
transform string containing `NaN`, which the source produces when it does
arithmetic on `undefined` geometry fields. -/
inductive Transform
  | empty
  | translateY (y : ℚ)
  | translate3d (x y z : ℚ)
  | invalid
deriving DecidableEq, Repr

/-- A CSS length property: either cleared (`''`) or a pixel value. -/
inductive StyleLen
  | unset
  | px (v : ℚ)
deriving DecidableEq, Repr

/-- The style properties the module writes on a node. -/
structure Style where
  webkitTransform : Transform := .empty
  msTransform : Transform := .empty
  transform : Transform := .empty
  top : StyleLen := .unset
  left : StyleLen := .unset
  width : StyleLen := .unset
  height : StyleLen := .unset
deriving DecidableEq, Repr

/-- One entry of the `matrix` array.  `measured = false` models the state
before `updateMatrixItem` first ran, when the geometry fields are still
`undefined` (any strict comparison with a number then reports a difference,
and arithmetic on them yields `NaN`).  `parallaxItem = none` models the
`undefined` field before the overlay slot was first looked up. -/
structure MatrixItem where
  originalNode : NodeId
  mediaWrapper : NodeId
  mediaElement : NodeId
  focalPoint : ℚ
  parallaxItem : Option NodeId := none
  measured : Bool := false
  top : ℚ := 0
  right : ℚ := 0
  bottom : ℚ := 0
  left : ℚ := 0
  width : ℚ := 0
  height : ℚ := 0
deriving DecidableEq, Repr

/-- Result of `getBoundingClientRect()` (viewport-relative). -/
structure Rect where
  top : ℚ
  right : ℚ
  bottom : ℚ
  left : ℚ
deriving DecidableEq, Repr

/-- One reading of an element's layout: its client rect and offset sizes. -/
structure Measurement where
  rect : Rect
  offsetWidth : ℚ
  offsetHeight : ℚ
deriving DecidableEq, Repr

/-- Calls made to external collaborators / class-list mutations. -/
inductive Effect
  | loadImage (mediaElement : NodeId)
  | addLoadedClass (mediaWrapper : NodeId)
deriving DecidableEq, Repr

/-- The module state plus the part of the DOM the module reads and writes.

`attached` lists the nodes `n` for which `element.contains(n)` holds;
`hostChildren` lists the children of the `[data-parallax-host]` node;
`wrapperParent` gives the current parent node of each wrapper;
`slotFor o` is the overlay slot that the host query for the
`data-parallax-id` of `o` returns (`none` when the query returns `null`). -/
structure PState where
  matrix : List MatrixItem
  windowHeight : ℚ
  isEditingIndex : Bool
  tweakParallax : String
  styles : NodeId → Style
  wrapperParent : NodeId → NodeId
  hostChildren : List NodeId
  attached : List NodeId
  slotFor : NodeId → Option NodeId
  effects : List Effect

/-- Per-call environment readings (layout measurement of each node, the
document scroll offset, and `window.innerHeight`). -/
structure Env where
  measure : NodeId → Measurement
  scrollTop : ℚ
  innerHeight : ℚ

/-- `isParallaxEnabled` (source lines 27-29). -/
def isParallaxEnabled (st : PState) : Bool :=
  if st.isEditingIndex then false else st.tweakParallax == "true"

/-- `updateMatrixItem` (source lines 65-88).  The source compares the cached
`top`, `left`, `width`, `height` against the current readings and, at the
first difference, overwrites all six cached fields and returns `true`;
otherwise it returns `false` leaving the item untouched.  Cached `top` and
`bottom` add the page scroll offset to the viewport-relative rect. -/
def updateMatrixItem (scrollTop : ℚ) (m : Measurement) (it : MatrixItem) :
    MatrixItem × Bool :=
  let curTop := m.rect.top + scrollTop
  if it.measured ∧ it.top = curTop ∧ it.left = m.rect.left ∧
      it.width = m.offsetWidth ∧ it.height = m.offsetHeight then
    (it, false)
  else
    ({ it with
        measured := true
        top := curTop
        right := m.rect.right
        bottom := m.rect.bottom + scrollTop
        left := m.rect.left
        width := m.offsetWidth
        height := m.offsetHeight }, true)

/-- `updateAllMatrixItems` (source lines 94-102): update every item, OR the
per-item results. -/
def updateAllMatrixItems (scrollTop : ℚ) (measure : NodeId → Measurement) :
    List MatrixItem → List MatrixItem × Bool
  | [] => ([], false)
  | it :: rest =>
    let head := updateMatrixItem scrollTop (measure it.originalNode) it
    let tail := updateAllMatrixItems scrollTop measure rest
    (head.1 :: tail.1, head.2 || tail.2)

/-- Write a transform to the `webkitTransform`, `msTransform` and `transform`
properties of node `n` (the source always writes all three). -/
def setTransforms (styles : NodeId → Style) (n : NodeId) (t : Transform) :
    NodeId → Style :=
  fun k => if k = n then
    { styles n with webkitTransform := t, msTransform := t, transform := t }
  else styles k

/-- Write the `top`/`left`/`width`/`height` style properties of node `n`. -/
def setPosStyles (styles : NodeId → Style) (n : NodeId)
    (top left width height : StyleLen) : NodeId → Style :=
  fun k => if k = n then
    { styles n with top := top, left := left, width := width, height := height }
  else styles k

/-- Write only the `top` style property of node `n`. -/
def setStyleTop (styles : NodeId → Style) (n : NodeId) (v : StyleLen) :
    NodeId → Style :=
  fun k => if k = n then { styles n with top := v } else styles k

/-- The body of the `matrix.forEach` in `scroll` (source lines 118-160).

When the item is unmeasured its geometry fields are `undefined`: the in-view
comparisons are then false and the out-of-range arithmetic yields `NaN`, so
the source writes a `NaN` transform string (`Transform.invalid`).  Accessing
`parallaxItem.style` throws a `TypeError` when `parallaxItem` is still
`undefined`. -/
def scrollItem (wh scrollTop : ℚ) (styles : NodeId → Style) (it : MatrixItem) :
    Except String (NodeId → Style) :=
  if it.measured ∧ scrollTop + wh > it.top ∧ scrollTop < it.bottom then
    let parallaxProportion := 1 - ((it.top + it.height * it.focalPoint - scrollTop) / wh)
    let styles1 := setTransforms styles it.mediaElement
      (.translateY (parallaxProportion * parallaxOffset))
    match it.parallaxItem with
    | none => .error "TypeError: cannot read style of undefined"
    | some p => .ok (setTransforms styles1 p (.translateY (-1 * scrollTop)))
  else
    match it.parallaxItem with
    | none => .error "TypeError: cannot read style of undefined"
    | some p =>
      .ok (setTransforms styles p
        (if it.measured then .translate3d (-1 * it.width - it.left) 0 0 else .invalid))

/-- The `matrix.forEach` loop of `scroll`, threading the style map. -/
def scrollPass (wh scrollTop : ℚ) (styles : NodeId → Style) :
    List MatrixItem → Except String (NodeId → Style)
  | [] => .ok styles
  | it :: rest =>
    match scrollItem wh scrollTop styles it with
    | .error e => .error e
    | .ok styles1 => scrollPass wh scrollTop styles1 rest

/-- `scroll` (source lines 112-161): no-op unless parallax is enabled,
otherwise write transforms for every matrix item. -/
def scroll (st : PState) (scrollTop : ℚ) : Except String PState :=
  if isParallaxEnabled st then
    match scrollPass st.windowHeight scrollTop st.styles st.matrix with
    | .error e => .error e
    | .ok styles1 => .ok { st with styles := styles1 }
  else
    .ok st

/-- Record a call to `loadImage(mediaElement)` (source lines 196-208; the
actual `ImageLoader.load` is an external collaborator). -/
def loadImageEffect (st : PState) (mediaElement : NodeId) : PState :=
  { st with effects := st.effects ++ [.loadImage mediaElement] }

/-- Record `mediaWrapper.classList.add('loaded')`. -/
def addLoadedEffect (st : PState) (mediaWrapper : NodeId) : PState :=
  { st with effects := st.effects ++ [.addLoadedClass mediaWrapper] }

/-- The tail of the enabled branch of the filter body (source lines
266-279 and 306-310): position the overlay node `p` from the cached
geometry, offset the wrapper upward by `parallaxOffset`, then load the
image and add the `loaded` class — twice, as the source does. -/
def syncStyleLoad (st1 : PState) (it1 : MatrixItem) (p : NodeId) :
    PState × MatrixItem :=
  let st2 := { st1 with styles := (setPosStyles st1.styles p
    (.px it1.top) (.px it1.left) (.px it1.width) (.px it1.height)) }
  let st3 := { st2 with styles :=
    (setStyleTop st2.styles it1.mediaWrapper (.px (-1 * parallaxOffset))) }
  let st4 := addLoadedEffect (loadImageEffect st3 it1.mediaElement) it1.mediaWrapper
  let st5 := addLoadedEffect (loadImageEffect st4 it1.mediaElement) it1.mediaWrapper
  (st5, it1)

/-- The body of the `matrix.filter` callback in `syncParallax`
(source lines 228-313).

* If the root `element` no longer contains `originalNode` (line 242), detach
  the overlay node from the host when it is among the host's children, and
  return with no further work (the callback returns `false` there).
* Otherwise, with parallax enabled: when the wrapper is still a child of
  `originalNode`, look up the overlay slot for the item's id — the source
  stores the query result in `matrixItem.parallaxItem` and immediately calls
  `appendChild` on it, a `TypeError` when the query returned `null` — and
  move the wrapper into it; then position the overlay node from the cached
  geometry (a `TypeError` when `parallaxItem` is still `undefined`), offset
  the wrapper by `-parallaxOffset`, and load the image / add the `loaded`
  class twice (lines 276-279 and again lines 307-310).
* With parallax disabled: move the wrapper back under `originalNode` if
  needed, clear the overlay node's position styles when one is recorded,
  clear the wrapper offset and the media transforms, then load the image and
  add the `loaded` class (lines 307-310). -/
def syncMatrixItem (st : PState) (it : MatrixItem) :
    Except String (PState × MatrixItem) :=
  if it.originalNode ∈ st.attached then
    if isParallaxEnabled st then
      if st.wrapperParent it.mediaWrapper = it.originalNode then
        match st.slotFor it.originalNode with
        | none => .error "TypeError: cannot call appendChild of null"
        | some p =>
          .ok (syncStyleLoad
            { st with wrapperParent :=
                fun k => if k = it.mediaWrapper then p else st.wrapperParent k }
            { it with parallaxItem := some p } p)
      else
        match it.parallaxItem with
        | none => .error "TypeError: cannot read style of undefined"
        | some p => .ok (syncStyleLoad st it p)
    else
      let st1 :=
        if st.wrapperParent it.mediaWrapper ≠ it.originalNode then
          { st with wrapperParent :=
            fun k => if k = it.mediaWrapper then it.originalNode else st.wrapperParent k }
        else st
      let st2 :=
        match it.parallaxItem with
        | some p => { st1 with styles := setPosStyles st1.styles p .unset .unset .unset .unset }
        | none => st1
      let st3 := { st2 with styles := setStyleTop st2.styles it.mediaWrapper .unset }
      let st4 := { st3 with styles := setTransforms st3.styles it.mediaElement .empty }
      let st5 := addLoadedEffect (loadImageEffect st4 it.mediaElement) it.mediaWrapper
      .ok (st5, it)
  else
    let st1 :=
      match it.parallaxItem with
      | some p =>
        if p ∈ st.hostChildren then
          { st with hostChildren := st.hostChildren.erase p }
        else st
      | none => st
    .ok (st1, it)

/-- The `matrix.filter(...)` traversal of `syncParallax`.  The matrix items
are JavaScript objects mutated in place, so the traversal yields the list of
(updated) items in order; the boolean the callback returns is produced only
for `Array.prototype.filter`'s result, which the source never assigns
anywhere (line 228), so no item is ever dropped. -/
def syncPass (st : PState) : List MatrixItem → Except String (PState × List MatrixItem)
  | [] => .ok (st, [])
  | it :: rest =>
    match syncMatrixItem st it with
    | .error e => .error e
    | .ok (st1, it1) =>
      match syncPass st1 rest with
      | .error e => .error e
      | .ok (st2, rest1) => .ok (st2, it1 :: rest1)

/-- The part of `syncParallax` after the short-circuit check: the relocation
pass over the matrix followed, when parallax is enabled, by one `scroll` call
at the current scroll offset (source lines 228-318). -/
def syncRest (env : Env) (st : PState) : Except String PState :=
  match syncPass st st.matrix with
  | .error e => .error e
  | .ok (st1, items) =>
    let st2 := { st1 with matrix := items }
    if isParallaxEnabled st2 then scroll st2 env.scrollTop else .ok st2

/-- A JavaScript value passed as the `force` argument of `syncParallax`:
callbacks invoke it with no argument (`undefined`), `requestAnimationFrame`
passes a numeric timestamp, and the forced callers pass `true`. -/
inductive JsVal
  | undefined
  | bool (b : Bool)
  | num (q : ℚ)
deriving DecidableEq, Repr

/-- `syncParallax` (source lines 218-319): store `window.innerHeight`, refresh
every matrix item's geometry, return early iff nothing changed *and* `force`
is strictly the boolean `false` (`force === false`, line 224), otherwise run
the relocation pass and, when enabled, one `scroll`. -/
def syncParallax (env : Env) (force : JsVal) (st : PState) : Except String PState :=
  let st1 := { st with windowHeight := env.innerHeight }
  let upd := updateAllMatrixItems env.scrollTop env.measure st1.matrix
  let st2 := { st1 with matrix := upd.1 }
  if upd.2 = false ∧ force = JsVal.bool false then .ok st2
  else syncRest env st2

/-- `initParallax` builds one matrix item per original node (source lines
35-57).  The inputs record, per original node, what the DOM queries return:
the wrapper query, the media-element query chain, and the parsed second
component of `data-image-focal-point` (present only when the attribute is a
nonempty string).  `querySelector` on a `null` wrapper and `getAttribute` on
a `null` media element throw `TypeError`s. -/
structure InitNode where
  id : NodeId
  mediaWrapper : Option NodeId
  mediaElement : Option NodeId
  focalAttr : Option ℚ
deriving DecidableEq, Repr

/-- The body of the `nodes.map` in `initParallax` (source lines 41-56). -/
def initMatrixItem (n : InitNode) : Except String MatrixItem :=
  match n.mediaWrapper with
  | none => .error "TypeError: cannot read querySelector of null"
  | some w =>
    match n.mediaElement with
    | none => .error "TypeError: cannot read getAttribute of null"
    | some e =>
      .ok { originalNode := n.id, mediaWrapper := w, mediaElement := e,
            focalPoint := n.focalAttr.getD (1 / 2) }

/-- `initParallax` (source lines 35-57): the `nodes.map(...)` building the
matrix, propagating the first `TypeError`. -/
def initParallax : List InitNode → Except String (List MatrixItem)
  | [] => .ok []
  | n :: rest =>
    match initMatrixItem n with
    | .error e => .error e
    | .ok it =>
      match initParallax rest with
      | .error e => .error e
      | .ok items => .ok (it :: items)

/-- Which of the module's registrations are currently bound.  `resizeEndSync`
is the `resizeEnd(syncParallax)` registration and `tweakWatch` the
`Tweak.watch(...)` subscription (source lines 343-360); the source never
unregisters either. -/
structure Listeners where
  scrollHandler : Bool
  indexEditEnabled : Bool
  indexEditDisabled : Bool
  indexEditDeleted : Bool
  indexEditReorder : Bool
  resizeEndSync : Bool
  tweakWatch : Bool
deriving DecidableEq, Repr

/-- Lifecycle state: the Darwin instance, the bound listeners, the
`scrolling` flag driving the self-rescheduling raf loop, the pending
100ms scroll timeout, the initial `requestAnimationFrame(syncParallax)`
request from `init` (line 369), and whether `documentElement.style
.pointerEvents` is currently `'none'`. -/
structure LifecycleState where
  darwin : Bool
  listeners : Listeners
  scrolling : Bool
  scrollTimeout : Bool
  rafInitialSync : Bool
  pointerEventsNone : Bool
deriving DecidableEq, Repr

/-- `bindListeners` (source lines 343-361) registers everything. -/
def bindListeners : Listeners :=
  { scrollHandler := true, indexEditEnabled := true, indexEditDisabled := true,
    indexEditDeleted := true, indexEditReorder := true,
    resizeEndSync := true, tweakWatch := true }

/-- Lifecycle state right after `init` (source lines 367-384). -/
def initLifecycle : LifecycleState :=
  { darwin := true, listeners := bindListeners, scrolling := false,
    scrollTimeout := false, rafInitialSync := true, pointerEventsNone := false }

/-- `handleScroll` (source lines 177-190): start the raf loop and disable
pointer events on the first event of a gesture, and (re)arm the 100ms
inactivity timeout. -/
def handleScroll (st : LifecycleState) : LifecycleState :=
  let st1 :=
    if st.scrolling = false then
      { st with scrolling := true, pointerEventsNone := true }
    else st
  { st1 with scrollTimeout := true }

/-- The pending scroll-inactivity timeout firing (source lines 186-189):
stop the raf loop and restore `pointerEvents` — a document style write. -/
def scrollTimeoutFire (st : LifecycleState) : LifecycleState :=
  if st.scrollTimeout then
    { st with scrollTimeout := false, scrolling := false, pointerEventsNone := false }
  else st

/-- `darwin.destroy()` — a `TypeError` if called on `null`. -/
def darwinDestroyCall (darwin : Bool) : Except String Unit :=
  if darwin then .ok () else .error "TypeError: cannot call destroy of null"

/-- `destroy` (source lines 390-401): guardedly destroy Darwin and remove the
scroll and index-edit listeners.  It touches nothing else: the pending scroll
timeout, the raf loop flag, the initial raf request, the `resizeEnd`
registration and the tweak watcher all stay as they were. -/
def destroy (st : LifecycleState) : Except String LifecycleState :=
  let step : Except String LifecycleState :=
    if st.darwin then
      match darwinDestroyCall st.darwin with
      | .error e => .error e
      | .ok _ => .ok { st with darwin := false }
    else .ok st
  match step with
  | .error e => .error e
  | .ok st1 =>
    .ok { st1 with listeners := { st1.listeners with
            scrollHandler := false, indexEditEnabled := false,
            indexEditDisabled := false, indexEditDeleted := false,
            indexEditReorder := false } }

/-! ### Basic lemmas about the style writes -/

theorem setTransforms_self (styles : NodeId → Style) (n : NodeId) (t : Transform) :
    setTransforms styles n t n =
      { styles n with webkitTransform := t, msTransform := t, transform := t } := by
  simp [setTransforms]

theorem setTransforms_other (styles : NodeId → Style) (n k : NodeId) (t : Transform)
    (h : k ≠ n) : setTransforms styles n t k = styles k := by
  simp [setTransforms, h]

theorem scrollPass_singleton (wh q : ℚ) (styles : NodeId → Style) (it : MatrixItem) :
    scrollPass wh q styles [it] = scrollItem wh q styles it := by
  unfold scrollPass
  cases h : scrollItem wh q styles it <;> simp [scrollPass]

/-- Computation of `scrollItem` on an in-view, measured item. -/
theorem scrollItem_in_view (wh q : ℚ) (styles : NodeId → Style)
    (it : MatrixItem) (p : NodeId)
    (hmeas : it.measured = true) (hp : it.parallaxItem = some p)
    (hview : q + wh > it.top ∧ q < it.bottom) :
    scrollItem wh q styles it = .ok (setTransforms
      (setTransforms styles it.mediaElement
        (.translateY ((1 - ((it.top + it.height * it.focalPoint - q) / wh)) * parallaxOffset)))
      p (.translateY (-1 * q))) := by
  unfold scrollItem
  rw [if_pos ⟨hmeas, hview⟩, hp]

/-- Computation of `scrollItem` on an out-of-view, measured item. -/
theorem scrollItem_out_of_view (wh q : ℚ) (styles : NodeId → Style)
    (it : MatrixItem) (p : NodeId)
    (hmeas : it.measured = true) (hp : it.parallaxItem = some p)
    (hout : ¬(q + wh > it.top ∧ q < it.bottom)) :
    scrollItem wh q styles it = .ok (setTransforms styles p
      (.translate3d (-1 * it.width - it.left) 0 0)) := by
  have hcond : ¬(it.measured = true ∧ q + wh > it.top ∧ q < it.bottom) :=
    fun h => hout h.2
  unfold scrollItem
  rw [if_neg hcond, hp, if_pos hmeas]

/-! ### C7: `scroll` is a no-op when parallax is disabled -/

/-- Claim C7: for every scroll offset and every tracked-item collection, when
parallax mode is disabled, `scroll` returns without mutating anything: the
resulting state is exactly the input state. -/
theorem scroll_disabled_noop (st : PState) (q : ℚ)
    (h : isParallaxEnabled st = false) : scroll st q = .ok st := by
  simp [scroll, h]

def c7State : PState :=
  { matrix := [], windowHeight := 0, isEditingIndex := true,
    tweakParallax := "true", styles := fun _ => {},
    wrapperParent := fun _ => 0, hostChildren := [], attached := [],
    slotFor := fun _ => none, effects := [] }

/-- Witness for C7 at a concrete disabled state. -/
theorem scroll_disabled_noop_witness :
    isParallaxEnabled c7State = false ∧ scroll c7State 5 = .ok c7State :=
  ⟨by decide, scroll_disabled_noop c7State 5 (by decide)⟩

/-! ### C5: in-view media transform -/

/-- Claim C5: for an in-view tracked item (`scrollOffset + H > top` and
`scrollOffset < bottom`) with parallax enabled, `scroll` writes the media
element's transform as a vertical translation of
`(1 - ((top + height * focalPoint - scrollOffset) / H)) * 500` pixels,
without clamping. -/
theorem scroll_in_view_media_transform (st : PState) (it : MatrixItem)
    (p : NodeId) (q : ℚ)
    (hm : st.matrix = [it])
    (he : isParallaxEnabled st = true)
    (hmeas : it.measured = true)
    (hp : it.parallaxItem = some p)
    (hne : it.mediaElement ≠ p)
    (hview : q + st.windowHeight > it.top ∧ q < it.bottom) :
    ∃ st1, scroll st q = .ok st1 ∧
      (st1.styles it.mediaElement).transform =
        .translateY ((1 - ((it.top + it.height * it.focalPoint - q) / st.windowHeight)) * 500) := by
  have hitem := scrollItem_in_view st.windowHeight q st.styles it p hmeas hp hview
  have heq : scroll st q = .ok { st with styles := (setTransforms
      (setTransforms st.styles it.mediaElement
        (.translateY ((1 - ((it.top + it.height * it.focalPoint - q) / st.windowHeight)) * parallaxOffset)))
      p (.translateY (-1 * q))) } := by
    unfold scroll
    rw [if_pos he, hm, scrollPass_singleton, hitem]
  refine ⟨_, heq, ?_⟩
  simp only [setTransforms_other _ _ _ _ hne, setTransforms_self, parallaxOffset]

def c5Item : MatrixItem :=
  { originalNode := 1, mediaWrapper := 2, mediaElement := 3,
    focalPoint := 1/2, parallaxItem := some 4, measured := true,
    top := 1000, right := 0, bottom := 1500, left := 0, width := 600, height := 500 }

def c5State : PState :=
  { matrix := [c5Item], windowHeight := 800, isEditingIndex := false,
    tweakParallax := "true", styles := fun _ => {},
    wrapperParent := fun k => if k = 2 then 4 else 0,
    hostChildren := [4], attached := [1],
    slotFor := fun k => if k = 1 then some 4 else none, effects := [] }

/-- Witness for C5 at the claim's scenario (`top = 1000`, `bottom = 1500`,
`height = 500`, `focalPoint = 1/2`, `H = 800`, `scrollOffset = 450`): the
item is in view and the vertical media translation is `0`. -/
theorem scroll_in_view_media_transform_witness :
    (isParallaxEnabled c5State = true)
    ∧ (450 + c5State.windowHeight > c5Item.top ∧ (450 : ℚ) < c5Item.bottom)
    ∧ (∃ st1, scroll c5State 450 = .ok st1 ∧
        (st1.styles c5Item.mediaElement).transform =
          .translateY ((1 - ((c5Item.top + c5Item.height * c5Item.focalPoint - 450) /
            c5State.windowHeight)) * 500))
    ∧ (1 - ((c5Item.top + c5Item.height * c5Item.focalPoint - 450) /
        c5State.windowHeight)) * 500 = 0 :=
  ⟨by decide, ⟨by norm_num [c5State, c5Item], by norm_num [c5State, c5Item]⟩,
    scroll_in_view_media_transform c5State c5Item 4 450 rfl (by decide) rfl rfl
      (by decide) ⟨by norm_num [c5State, c5Item], by norm_num [c5State, c5Item]⟩,
    by norm_num [c5State, c5Item]⟩

/-! ### C8: out-of-view overlay transform -/

/-- Claim C8: for an out-of-view tracked item with parallax enabled, `scroll`
writes to the item's overlay node a horizontal `translate3d` of
`-(width + left)` pixels with zero vertical (and zero z) component, in all
three vendor spellings of the transform property. -/
theorem scroll_out_of_view_overlay_transform (st : PState) (it : MatrixItem)
    (p : NodeId) (q : ℚ)
    (hm : st.matrix = [it])
    (he : isParallaxEnabled st = true)
    (hmeas : it.measured = true)
    (hp : it.parallaxItem = some p)
    (hout : ¬(q + st.windowHeight > it.top ∧ q < it.bottom)) :
    ∃ st1, scroll st q = .ok st1 ∧
      (st1.styles p).webkitTransform = .translate3d (-(it.width + it.left)) 0 0 ∧
      (st1.styles p).msTransform = .translate3d (-(it.width + it.left)) 0 0 ∧
      (st1.styles p).transform = .translate3d (-(it.width + it.left)) 0 0 := by
  have hval : (-1 : ℚ) * it.width - it.left = -(it.width + it.left) := by ring
  have hitem := scrollItem_out_of_view st.windowHeight q st.styles it p hmeas hp hout
  have heq : scroll st q = .ok { st with styles := (setTransforms st.styles p
      (.translate3d (-1 * it.width - it.left) 0 0)) } := by
    unfold scroll
    rw [if_pos he, hm, scrollPass_singleton, hitem]
  refine ⟨_, heq, ?_, ?_, ?_⟩
  all_goals simp only [setTransforms_self]
  all_goals rw [hval]

def c8Item : MatrixItem :=
  { originalNode := 1, mediaWrapper := 2, mediaElement := 3,
    focalPoint := 1/2, parallaxItem := some 4, measured := true,
    top := 1000, right := 0, bottom := 1500, left := 10, width := 600, height := 500 }

def c8State : PState :=
  { matrix := [c8Item], windowHeight := 800, isEditingIndex := false,
    tweakParallax := "true", styles := fun _ => {},
    wrapperParent := fun k => if k = 2 then 4 else 0,
    hostChildren := [4], attached := [1],
    slotFor := fun k => if k = 1 then some 4 else none, effects := [] }

/-- Witness for C8: at `scrollOffset = 1600 ≥ bottom` the item is out of
view and the overlay node receives `translate3d(-(600+10)px, 0, 0)`. -/
theorem scroll_out_of_view_overlay_transform_witness :
    (isParallaxEnabled c8State = true)
    ∧ ¬(1600 + c8State.windowHeight > c8Item.top ∧ (1600 : ℚ) < c8Item.bottom)
    ∧ (∃ st1, scroll c8State 1600 = .ok st1 ∧
        (st1.styles 4).webkitTransform = .translate3d (-(c8Item.width + c8Item.left)) 0 0 ∧
        (st1.styles 4).msTransform = .translate3d (-(c8Item.width + c8Item.left)) 0 0 ∧
        (st1.styles 4).transform = .translate3d (-(c8Item.width + c8Item.left)) 0 0) :=
  ⟨by decide, by norm_num [c8State, c8Item],
    scroll_out_of_view_overlay_transform c8State c8Item 4 1600 rfl (by decide) rfl rfl
      (by norm_num [c8State, c8Item])⟩

/-! ### C6: geometry refresh -/

/-- Claim C6: `updateMatrixItem` compares the current top/left/width/height
against the cached ones; if any of the four differs (or the item was never
measured) it overwrites all six cached geometry fields — with `top` and
`bottom` including the page scroll offset — and returns `true`; otherwise it
leaves the item untouched and returns `false`.  Consequently a repeated call
whose measurement has the same page-relative top and the same left, width
and height returns `false` and leaves the cache untouched. -/
theorem updateMatrixItem_spec (s : ℚ) (m : Measurement) (it : MatrixItem) :
    (updateMatrixItem s m it =
      if it.measured = true ∧ it.top = m.rect.top + s ∧ it.left = m.rect.left ∧
          it.width = m.offsetWidth ∧ it.height = m.offsetHeight
      then (it, false)
      else ({ it with
              measured := true
              top := m.rect.top + s
              right := m.rect.right
              bottom := m.rect.bottom + s
              left := m.rect.left
              width := m.offsetWidth
              height := m.offsetHeight }, true))
    ∧ ∀ (s1 : ℚ) (m1 : Measurement),
        m1.rect.top + s1 = m.rect.top + s → m1.rect.left = m.rect.left →
        m1.offsetWidth = m.offsetWidth → m1.offsetHeight = m.offsetHeight →
        updateMatrixItem s1 m1 (updateMatrixItem s m it).1 =
          ((updateMatrixItem s m it).1, false) := by
  have unchanged : ∀ (s2 : ℚ) (m2 : Measurement) (it2 : MatrixItem),
      (it2.measured = true ∧ it2.top = m2.rect.top + s2 ∧ it2.left = m2.rect.left ∧
        it2.width = m2.offsetWidth ∧ it2.height = m2.offsetHeight) →
      updateMatrixItem s2 m2 it2 = (it2, false) := by
    intro s2 m2 it2 hc
    rw [updateMatrixItem, if_pos hc]
  constructor
  · rfl
  · intro s1 m1 h1 h2 h3 h4
    by_cases hc : it.measured = true ∧ it.top = m.rect.top + s ∧
        it.left = m.rect.left ∧ it.width = m.offsetWidth ∧ it.height = m.offsetHeight
    · rw [unchanged s m it hc]
      exact unchanged s1 m1 it ⟨hc.1, by rw [hc.2.1, h1], by rw [hc.2.2.1, h2],
        by rw [hc.2.2.2.1, h3], by rw [hc.2.2.2.2, h4]⟩
    · have hch : updateMatrixItem s m it = ({ it with
          measured := true
          top := m.rect.top + s
          right := m.rect.right
          bottom := m.rect.bottom + s
          left := m.rect.left
          width := m.offsetWidth
          height := m.offsetHeight }, true) := by
        rw [updateMatrixItem, if_neg hc]
      rw [hch]
      exact unchanged s1 m1 _ ⟨rfl, h1.symm, h2.symm, h3.symm, h4.symm⟩

def c6Item : MatrixItem :=
  { originalNode := 1, mediaWrapper := 2, mediaElement := 3, focalPoint := 1/2 }

def c6M : Measurement :=
  { rect := { top := 40, right := 90, bottom := 140, left := 20 },
    offsetWidth := 70, offsetHeight := 100 }

/-- Witness for C6: a fresh (unmeasured) item is overwritten and reported
changed; an immediately repeated call with the same measurement reports
`false` and leaves the cache untouched. -/
theorem updateMatrixItem_spec_witness :
    updateMatrixItem 5 c6M (updateMatrixItem 5 c6M c6Item).1 =
      ((updateMatrixItem 5 c6M c6Item).1, false) :=
  (updateMatrixItem_spec 5 c6M c6Item).2 5 c6M rfl rfl rfl rfl

/-! ### C9 and C10: the `force === false` short-circuit -/

theorem updateMatrixItem_of_snd_false (s : ℚ) (m : Measurement) (it : MatrixItem)
    (h : (updateMatrixItem s m it).2 = false) :
    updateMatrixItem s m it = (it, false) := by
  by_cases hc : it.measured = true ∧ it.top = m.rect.top + s ∧ it.left = m.rect.left ∧
      it.width = m.offsetWidth ∧ it.height = m.offsetHeight
  · rw [updateMatrixItem, if_pos hc]
  · rw [updateMatrixItem, if_neg hc] at h
    simp at h

theorem updateAllMatrixItems_of_snd_false (s : ℚ) (f : NodeId → Measurement) :
    ∀ items : List MatrixItem,
      (updateAllMatrixItems s f items).2 = false →
      (updateAllMatrixItems s f items).1 = items := by
  intro items
  induction items with
  | nil => intro _; rfl
  | cons it rest ih =>
    intro h
    rw [updateAllMatrixItems] at h ⊢
    simp only [Bool.or_eq_false_iff] at h
    have h1 := updateMatrixItem_of_snd_false s (f it.originalNode) it h.1
    simp only [h1, ih h.2]

/-- Claim C9: when `syncParallax` is called with `force` strictly `false` and
the geometry refresh reports no change, the call returns with the state
unchanged except for the freshly stored `windowHeight`: no style writes, no
wrapper moves, no host-children changes, no effects, and the same matrix. -/
theorem syncParallax_short_circuit (env : Env) (st : PState)
    (h : (updateAllMatrixItems env.scrollTop env.measure st.matrix).2 = false) :
    syncParallax env (JsVal.bool false) st =
      .ok { st with windowHeight := env.innerHeight } := by
  have h1 := updateAllMatrixItems_of_snd_false env.scrollTop env.measure st.matrix h
  rw [syncParallax]
  simp only [h1, h]
  rfl

def c9Item : MatrixItem :=
  { originalNode := 1, mediaWrapper := 2, mediaElement := 3,
    focalPoint := 1/2, parallaxItem := some 4, measured := true,
    top := 1000, right := 0, bottom := 1500, left := 0, width := 600, height := 500 }

def c9State : PState :=
  { matrix := [c9Item], windowHeight := 800, isEditingIndex := false,
    tweakParallax := "true", styles := fun _ => {},
    wrapperParent := fun k => if k = 2 then 4 else 0,
    hostChildren := [4], attached := [1],
    slotFor := fun k => if k = 1 then some 4 else none, effects := [] }

def c9Env : Env :=
  { measure := fun n =>
      if n = 1 then
        { rect := { top := 1000, right := 0, bottom := 1500, left := 0 },
          offsetWidth := 600, offsetHeight := 500 }
      else
        { rect := { top := 0, right := 0, bottom := 0, left := 0 },
          offsetWidth := 0, offsetHeight := 0 },
    scrollTop := 0, innerHeight := 800 }

/-- Witness for C9: a static layout (measurement equal to the cache) with
`force = false` short-circuits. -/
theorem syncParallax_short_circuit_witness :
    ((updateAllMatrixItems c9Env.scrollTop c9Env.measure c9State.matrix).2 = false)
    ∧ syncParallax c9Env (JsVal.bool false) c9State =
        .ok { c9State with windowHeight := c9Env.innerHeight } := by
  have h : (updateAllMatrixItems c9Env.scrollTop c9Env.measure c9State.matrix).2 = false := by
    norm_num [c9Env, c9State, c9Item, updateAllMatrixItems, updateMatrixItem]
  exact ⟨h, syncParallax_short_circuit c9Env c9State h⟩

/-- Claim C10: the short-circuit fires only for the strict boolean `false`.
For every other `force` value — `undefined` when `syncParallax` is invoked
directly as a resize or mutation-watcher callback, a numeric timestamp when
invoked by `requestAnimationFrame` — the full relocation-and-loading pass
(`syncRest`) runs even when the geometry refresh reported no change. -/
theorem syncParallax_force_runs_full_pass (env : Env) (force : JsVal) (st : PState)
    (hf : force ≠ JsVal.bool false)
    (h : (updateAllMatrixItems env.scrollTop env.measure st.matrix).2 = false) :
    syncParallax env force st =
      syncRest env { st with windowHeight := env.innerHeight } := by
  have h1 := updateAllMatrixItems_of_snd_false env.scrollTop env.measure st.matrix h
  rw [syncParallax]
  simp only [h1]
  rw [if_neg (fun hc => hf hc.2)]

def c10Item : MatrixItem :=
  { originalNode := 1, mediaWrapper := 2, mediaElement := 3,
    focalPoint := 1/2, parallaxItem := some 4, measured := true,
    top := 1000, right := 0, bottom := 1500, left := 0, width := 600, height := 500 }

def c10State : PState :=
  { matrix := [c10Item], windowHeight := 800, isEditingIndex := false,
    tweakParallax := "true", styles := fun _ => {},
    wrapperParent := fun k => if k = 2 then 4 else 0,
    hostChildren := [4], attached := [1],
    slotFor := fun k => if k = 1 then some 4 else none, effects := [] }

def c10Env : Env :=
  { measure := fun n =>
      if n = 1 then
        { rect := { top := 1000, right := 0, bottom := 1500, left := 0 },
          offsetWidth := 600, offsetHeight := 500 }
      else
        { rect := { top := 0, right := 0, bottom := 0, left := 0 },
          offsetWidth := 0, offsetHeight := 0 },
    scrollTop := 0, innerHeight := 800 }

/-- Witness for C10: with unchanged geometry and `force = undefined` (the
way the resize and mutation-watcher callbacks invoke `syncParallax`), the
call still runs the full pass. -/
theorem syncParallax_force_runs_full_pass_witness :
    (JsVal.undefined ≠ JsVal.bool false)
    ∧ ((updateAllMatrixItems c10Env.scrollTop c10Env.measure c10State.matrix).2 = false)
    ∧ syncParallax c10Env JsVal.undefined c10State =
        syncRest c10Env { c10State with windowHeight := c10Env.innerHeight } := by
  have h : (updateAllMatrixItems c10Env.scrollTop c10Env.measure c10State.matrix).2 = false := by
    norm_num [c10Env, c10State, c10Item, updateAllMatrixItems, updateMatrixItem]
  exact ⟨by decide, h,
    syncParallax_force_runs_full_pass c10Env JsVal.undefined c10State (by decide) h⟩

/-! ### C1: a stale item is never dropped from the matrix -/

def c1Item : MatrixItem :=
  { originalNode := 1, mediaWrapper := 2, mediaElement := 3,
    focalPoint := 1/2, parallaxItem := some 4, measured := true,
    top := 0, right := 0, bottom := 0, left := 0, width := 0, height := 0 }

/-- A state in which the root `element` no longer contains the item's
`originalNode` (1 is not in `attached`), while the item's overlay node 4 is
still a child of the parallax host. -/
def c1State : PState :=
  { matrix := [c1Item], windowHeight := 800, isEditingIndex := false,
    tweakParallax := "true", styles := fun _ => {},
    wrapperParent := fun k => if k = 2 then 4 else 0,
    hostChildren := [4], attached := [],
    slotFor := fun _ => none, effects := [] }

/-- A detached node measures as an all-zero rect with zero offset sizes. -/
def c1Env : Env :=
  { measure := fun _ =>
      { rect := { top := 0, right := 0, bottom := 0, left := 0 },
        offsetWidth := 0, offsetHeight := 0 },
    scrollTop := 0, innerHeight := 800 }

/-- Claim C1 is violated by the code: `syncParallax` does detach the stale
item's overlay node from the host (`hostChildren` becomes empty), but the
item is *not* removed from the matrix — the result of `matrix.filter(...)`
is discarded at source line 228 — and transform styles are still written for
the item: the trailing `scroll` of this very `syncParallax` call writes a
transform to the detached overlay node 4, and a subsequent `scroll` call
(evaluated here from a state whose styles were reset, to isolate its writes)
writes to node 4 again. -/
theorem syncParallax_stale_item_not_dropped :
    (syncParallax c1Env (JsVal.bool true) c1State).map (fun s =>
      (s.hostChildren, s.matrix.map (fun it => it.originalNode),
        (s.styles 4).transform,
        (scroll { s with styles := fun _ => {} } 7).map
          (fun s2 => (s2.styles 4).transform)))
      = .ok ([], [1], .translate3d 0 0 0, .ok (.translate3d 0 0 0)) := by
  norm_num [c1Env, c1State, c1Item, syncParallax, updateAllMatrixItems, updateMatrixItem,
    syncRest, syncPass, syncMatrixItem, syncStyleLoad, isParallaxEnabled, scroll,
    scrollPass, scrollItem, setTransforms, List.erase, Except.map]

/-! ### C3: `destroy` leaves timers and listeners behind -/

/-- Lifecycle state after `init` ran and one scroll event was handled: the
raf loop is running (`scrolling`), the 100ms inactivity timeout is pending,
and pointer events are disabled. -/
def c3Before : LifecycleState := handleScroll initLifecycle

/-- Claim C3 is half right and half violated by the code: calling `destroy`
twice does not throw (the `if (darwin)` guard makes the second call skip the
Darwin teardown), but after `destroy` returns the pending scroll timeout is
still armed, the raf-loop flag is still set, the initial animation-frame
request for `syncParallax` is still pending, and the `resizeEnd` and
`Tweak.watch` registrations are still bound — `destroy` removes only the
scroll and index-edit listeners.  Firing the leftover timeout still mutates
the document (it restores `pointerEvents`), hence `scrollTimeoutFire` is
not the identity on the post-`destroy` state. -/
theorem destroy_leaves_timer_and_listeners_active :
    ∃ s1, destroy c3Before = .ok s1
      ∧ (∃ s2, destroy s1 = .ok s2)
      ∧ s1.scrollTimeout = true
      ∧ s1.scrolling = true
      ∧ s1.listeners.resizeEndSync = true
      ∧ s1.listeners.tweakWatch = true
      ∧ s1.rafInitialSync = true
      ∧ scrollTimeoutFire s1 ≠ s1 := by
  refine ⟨_, rfl, ⟨_, rfl⟩, rfl, rfl, rfl, rfl, rfl, by decide⟩

/-! ### C4: a missing expected descendant makes initialization throw -/

def c4BadNode : InitNode :=
  { id := 1, mediaWrapper := none, mediaElement := none, focalAttr := none }

/-- Counterexample to claim C4: on a DOM configuration whose single original
node has no `[data-parallax-image-wrapper]` descendant, `initParallax`
throws a `TypeError` (`mediaWrapper.querySelector(...)` on `null`, source
line 44) instead of returning. -/
theorem initParallax_missing_wrapper_throws :
    initParallax [c4BadNode] =
      .error "TypeError: cannot read querySelector of null" := rfl

/-! ### C2 and C4: the wrapper-parent invariant and the no-throw conditions

`wrapperHome` says the media wrapper is currently a child of the item's
original node; `wrapperInOverlay` says the item records its wrapper's
current parent as its overlay node.  `itemHyp` collects the well-formedness
facts about an item that the relocation pass needs: the wrapper sits under
one of the two containers, neither recorded overlay node nor overlay slot
coincides with the original node, an overlay slot exists when an attached
item's wrapper must be relocated, and a stale item already has an overlay
node recorded when parallax is on (otherwise the trailing `scroll` throws).
-/

def wrapperHome (st : PState) (it : MatrixItem) : Prop :=
  st.wrapperParent it.mediaWrapper = it.originalNode

def wrapperInOverlay (st : PState) (it : MatrixItem) : Prop :=
  it.parallaxItem = some (st.wrapperParent it.mediaWrapper)

/-- The invariant of claim C2: the wrapper is parented under exactly one of
the original node and the recorded overlay node — never both, never
neither. -/
def exactlyOneParent (st : PState) (it : MatrixItem) : Prop :=
  (wrapperHome st it ∧ ¬ wrapperInOverlay st it) ∨
  (¬ wrapperHome st it ∧ wrapperInOverlay st it)

def itemHyp (st : PState) (it : MatrixItem) : Prop :=
  (wrapperHome st it ∨ wrapperInOverlay st it)
  ∧ it.parallaxItem ≠ some it.originalNode
  ∧ st.slotFor it.originalNode ≠ some it.originalNode
  ∧ (isParallaxEnabled st = true → it.originalNode ∈ st.attached →
      wrapperHome st it → (st.slotFor it.originalNode).isSome = true)
  ∧ (isParallaxEnabled st = true → it.originalNode ∉ st.attached →
      it.parallaxItem.isSome = true)

/-- What one step of the relocation pass establishes for an item. -/
def itemGood (st : PState) (it : MatrixItem) : Prop :=
  exactlyOneParent st it
  ∧ (isParallaxEnabled st = true → it.parallaxItem.isSome = true)

instance (st : PState) (it : MatrixItem) : Decidable (wrapperHome st it) := by
  unfold wrapperHome; infer_instance

instance (st : PState) (it : MatrixItem) : Decidable (wrapperInOverlay st it) := by
  unfold wrapperInOverlay; infer_instance

instance (st : PState) (it : MatrixItem) : Decidable (exactlyOneParent st it) := by
  unfold exactlyOneParent; infer_instance

instance (st : PState) (it : MatrixItem) : Decidable (itemHyp st it) := by
  unfold itemHyp; infer_instance

theorem isParallaxEnabled_congr (st1 st : PState)
    (h1 : st1.isEditingIndex = st.isEditingIndex)
    (h2 : st1.tweakParallax = st.tweakParallax) :
    isParallaxEnabled st1 = isParallaxEnabled st := by
  unfold isParallaxEnabled
  rw [h1, h2]

theorem exactlyOneParent_of (st : PState) (it : MatrixItem)
    (h1 : wrapperHome st it ∨ wrapperInOverlay st it)
    (h2 : it.parallaxItem ≠ some it.originalNode) :
    exactlyOneParent st it := by
  by_cases hh : wrapperHome st it
  · left
    refine ⟨hh, fun hov => h2 ?_⟩
    unfold wrapperInOverlay at hov
    unfold wrapperHome at hh
    rw [hov, hh]
  · right
    exact ⟨hh, h1.resolve_left hh⟩

theorem exactlyOneParent_congr (st st' : PState) (it : MatrixItem)
    (hw : st'.wrapperParent it.mediaWrapper = st.wrapperParent it.mediaWrapper)
    (h : exactlyOneParent st it) : exactlyOneParent st' it := by
  unfold exactlyOneParent wrapperHome wrapperInOverlay at h ⊢
  rw [hw]
  exact h

theorem itemHyp_transfer (st st' : PState) (it it' : MatrixItem)
    (hw : st'.wrapperParent it'.mediaWrapper = st.wrapperParent it.mediaWrapper)
    (hsl : st'.slotFor = st.slotFor) (hat : st'.attached = st.attached)
    (hed : st'.isEditingIndex = st.isEditingIndex)
    (htw : st'.tweakParallax = st.tweakParallax)
    (ho : it'.originalNode = it.originalNode)
    (hpi : it'.parallaxItem = it.parallaxItem)
    (h : itemHyp st it) : itemHyp st' it' := by
  have he := isParallaxEnabled_congr st' st hed htw
  unfold itemHyp wrapperHome wrapperInOverlay at h ⊢
  rw [hw, hsl, hat, ho, hpi, he]
  exact h

theorem itemGood_transfer (st st' : PState) (it : MatrixItem)
    (hw : st'.wrapperParent it.mediaWrapper = st.wrapperParent it.mediaWrapper)
    (hed : st'.isEditingIndex = st.isEditingIndex)
    (htw : st'.tweakParallax = st.tweakParallax)
    (h : itemGood st it) : itemGood st' it := by
  have he := isParallaxEnabled_congr st' st hed htw
  unfold itemGood exactlyOneParent wrapperHome wrapperInOverlay at h ⊢
  rw [hw, he]
  exact h

/-- One step of the relocation pass succeeds on an item satisfying
`itemHyp` and establishes `itemGood`, while touching the `wrapperParent`
map at most at this item's wrapper and keeping all mode-relevant state. -/
theorem syncMatrixItem_ok (st : PState) (it : MatrixItem) (h : itemHyp st it) :
    ∃ st1 it1, syncMatrixItem st it = .ok (st1, it1)
      ∧ itemGood st1 it1
      ∧ it1.originalNode = it.originalNode
      ∧ it1.mediaWrapper = it.mediaWrapper
      ∧ st1.isEditingIndex = st.isEditingIndex
      ∧ st1.tweakParallax = st.tweakParallax
      ∧ st1.attached = st.attached
      ∧ st1.slotFor = st.slotFor
      ∧ st1.matrix = st.matrix
      ∧ st1.windowHeight = st.windowHeight
      ∧ ∀ w, w ≠ it.mediaWrapper → st1.wrapperParent w = st.wrapperParent w := by
  obtain ⟨hor, hpo, hso, hslot, hstale⟩ := h
  unfold syncMatrixItem
  by_cases hmem : it.originalNode ∈ st.attached
  · rw [if_pos hmem]
    by_cases henb : isParallaxEnabled st = true
    · rw [if_pos henb]
      by_cases hhome : st.wrapperParent it.mediaWrapper = it.originalNode
      · obtain ⟨p, hp⟩ := Option.isSome_iff_exists.mp (hslot henb hmem hhome)
        have hpne : p ≠ it.originalNode := fun hc => hso (by rw [hp, hc])
        rw [if_pos hhome, hp]
        refine ⟨_, _, rfl, ?_, rfl, rfl, rfl, rfl, rfl, rfl, rfl, rfl, ?_⟩
        · refine ⟨Or.inr ⟨?_, ?_⟩, fun _ => rfl⟩
          · intro hc
            unfold wrapperHome at hc
            simp only [syncStyleLoad, addLoadedEffect, loadImageEffect] at hc
            simp at hc
            exact hpne hc
          · unfold wrapperInOverlay
            simp only [syncStyleLoad, addLoadedEffect, loadImageEffect]
            simp
        · intro w hw
          simp only [syncStyleLoad, addLoadedEffect, loadImageEffect]
          simp [hw]
      · have hov : wrapperInOverlay st it := hor.resolve_left hhome
        have hov' : it.parallaxItem = some (st.wrapperParent it.mediaWrapper) := hov
        rw [if_neg hhome, hov']
        refine ⟨_, _, rfl, ?_, rfl, rfl, rfl, rfl, rfl, rfl, rfl, rfl,
          fun w _ => rfl⟩
        exact ⟨Or.inr ⟨hhome, hov⟩, fun _ => by rw [hov']; rfl⟩
    · rw [if_neg henb]
      by_cases hhome : st.wrapperParent it.mediaWrapper = it.originalNode
      · rw [if_neg (not_not_intro hhome)]
        rcases hpi : it.parallaxItem with _ | p
        · refine ⟨_, _, rfl, ?_, rfl, rfl, rfl, rfl, rfl, rfl, rfl, rfl,
            fun w _ => rfl⟩
          refine ⟨Or.inl ⟨hhome, fun hov => ?_⟩, fun he' => absurd he' henb⟩
          unfold wrapperInOverlay at hov
          rw [hpi] at hov
          cases hov
        · refine ⟨_, _, rfl, ?_, rfl, rfl, rfl, rfl, rfl, rfl, rfl, rfl,
            fun w _ => rfl⟩
          refine ⟨Or.inl ⟨hhome, fun hov => ?_⟩, fun he' => absurd he' henb⟩
          unfold wrapperInOverlay at hov
          simp only [addLoadedEffect, loadImageEffect] at hov
          rw [hhome] at hov
          exact hpo hov
      · rw [if_pos hhome]
        rcases hpi : it.parallaxItem with _ | p
        · refine ⟨_, _, rfl, ?_, rfl, rfl, rfl, rfl, rfl, rfl, rfl, rfl, ?_⟩
          · refine ⟨Or.inl ⟨?_, ?_⟩, fun he' => absurd he' henb⟩
            · unfold wrapperHome
              simp [addLoadedEffect, loadImageEffect]
            · intro hov
              unfold wrapperInOverlay at hov
              rw [hpi] at hov
              cases hov
          · intro w hw
            simp [addLoadedEffect, loadImageEffect, hw]
        · refine ⟨_, _, rfl, ?_, rfl, rfl, rfl, rfl, rfl, rfl, rfl, rfl, ?_⟩
          · refine ⟨Or.inl ⟨?_, ?_⟩, fun he' => absurd he' henb⟩
            · unfold wrapperHome
              simp [addLoadedEffect, loadImageEffect]
            · intro hov
              unfold wrapperInOverlay at hov
              rw [hpi] at hov
              simp [addLoadedEffect, loadImageEffect] at hov
              exact hpo (by rw [hpi, hov])
          · intro w hw
            simp [addLoadedEffect, loadImageEffect, hw]
  · rw [if_neg hmem]
    have hsome : isParallaxEnabled st = true → it.parallaxItem.isSome = true :=
      fun he => hstale he hmem
    rcases hpi : it.parallaxItem with _ | p
    · refine ⟨_, _, rfl, ?_, rfl, rfl, rfl, rfl, rfl, rfl, rfl, rfl, fun w _ => rfl⟩
      exact ⟨exactlyOneParent_of st it hor hpo, hsome⟩
    · by_cases hin : p ∈ st.hostChildren
      · simp only [hin, ite_true]
        refine ⟨_, _, rfl, ?_, rfl, rfl, rfl, rfl, rfl, rfl, rfl, rfl, fun w _ => rfl⟩
        exact ⟨exactlyOneParent_of st it hor hpo, hsome⟩
      · simp only [hin, ite_false]
        refine ⟨_, _, rfl, ?_, rfl, rfl, rfl, rfl, rfl, rfl, rfl, rfl, fun w _ => rfl⟩
        exact ⟨exactlyOneParent_of st it hor hpo, hsome⟩

/-- The whole relocation pass succeeds on a matrix of pairwise-distinct
wrappers whose items all satisfy `itemHyp`, establishes `itemGood` for every
(updated) item, and moves only the wrappers of the traversed items. -/
theorem syncPass_ok : ∀ (items : List MatrixItem) (st : PState),
    items.Pairwise (fun a b => a.mediaWrapper ≠ b.mediaWrapper) →
    (∀ it ∈ items, itemHyp st it) →
    ∃ st1 items1, syncPass st items = .ok (st1, items1)
      ∧ (∀ it ∈ items1, itemGood st1 it)
      ∧ st1.isEditingIndex = st.isEditingIndex
      ∧ st1.tweakParallax = st.tweakParallax
      ∧ st1.attached = st.attached
      ∧ st1.slotFor = st.slotFor
      ∧ st1.matrix = st.matrix
      ∧ st1.windowHeight = st.windowHeight
      ∧ (∀ w, (∀ it ∈ items, w ≠ it.mediaWrapper) →
          st1.wrapperParent w = st.wrapperParent w) := by
  intro items
  induction items with
  | nil =>
    intro st _ _
    exact ⟨st, [], rfl, by simp, rfl, rfl, rfl, rfl, rfl, rfl, fun _ _ => rfl⟩
  | cons it rest ih =>
    intro st hdis hyp
    obtain ⟨hdisHead, hdisRest⟩ := List.pairwise_cons.mp hdis
    obtain ⟨sA, iA, heqA, hgoodA, hoA, hwrA, hedA, htwA, hatA, hslA, hmA, hwhA, hwpA⟩ :=
      syncMatrixItem_ok st it (hyp it (List.mem_cons_self it rest))
    have hypRest : ∀ b ∈ rest, itemHyp sA b := by
      intro b hb
      exact itemHyp_transfer st sA b b
        (hwpA b.mediaWrapper (fun hc => hdisHead b hb hc.symm))
        hslA hatA hedA htwA rfl rfl
        (hyp b (List.mem_cons_of_mem it hb))
    obtain ⟨sB, restB, heqB, hgoodB, hedB, htwB, hatB, hslB, hmB, hwhB, hwpB⟩ :=
      ih sA hdisRest hypRest
    have hwB : sB.wrapperParent iA.mediaWrapper = sA.wrapperParent iA.mediaWrapper := by
      refine hwpB iA.mediaWrapper (fun b hb => ?_)
      rw [hwrA]
      exact hdisHead b hb
    refine ⟨sB, iA :: restB, ?_, ?_, by rw [hedB, hedA], by rw [htwB, htwA],
      by rw [hatB, hatA], by rw [hslB, hslA], by rw [hmB, hmA],
      by rw [hwhB, hwhA], ?_⟩
    · simp only [syncPass, heqA, heqB]
    · intro b hb
      rcases List.mem_cons.mp hb with hb1 | hb2
      · subst hb1
        exact itemGood_transfer sA sB b hwB hedB htwB hgoodA
      · exact hgoodB b hb2
    · intro w hw
      rw [hwpB w (fun b hb => hw b (List.mem_cons_of_mem it hb)),
        hwpA w (hw it (List.mem_cons_self it rest))]

theorem scrollItem_ok (wh q : ℚ) (styles : NodeId → Style) (it : MatrixItem)
    (h : it.parallaxItem.isSome = true) :
    ∃ styles1, scrollItem wh q styles it = .ok styles1 := by
  obtain ⟨p, hp⟩ := Option.isSome_iff_exists.mp h
  unfold scrollItem
  by_cases hc : it.measured = true ∧ q + wh > it.top ∧ q < it.bottom
  · rw [if_pos hc, hp]
    exact ⟨_, rfl⟩
  · rw [if_neg hc, hp]
    exact ⟨_, rfl⟩

theorem scrollPass_ok : ∀ (items : List MatrixItem) (wh q : ℚ)
    (styles : NodeId → Style),
    (∀ it ∈ items, it.parallaxItem.isSome = true) →
    ∃ styles1, scrollPass wh q styles items = .ok styles1 := by
  intro items
  induction items with
  | nil =>
    intro wh q styles _
    exact ⟨styles, rfl⟩
  | cons it rest ih =>
    intro wh q styles h
    obtain ⟨s1, hs1⟩ := scrollItem_ok wh q styles it (h it (List.mem_cons_self it rest))
    obtain ⟨s2, hs2⟩ := ih wh q s1 (fun b hb => h b (List.mem_cons_of_mem it hb))
    refine ⟨s2, ?_⟩
    simp only [scrollPass, hs1, hs2]

/-- `scroll` succeeds whenever every item has an overlay node recorded (or
parallax is disabled), and only the style map can change. -/
theorem scroll_ok (st : PState) (q : ℚ)
    (h : isParallaxEnabled st = true → ∀ it ∈ st.matrix, it.parallaxItem.isSome = true) :
    ∃ st1, scroll st q = .ok st1
      ∧ st1.matrix = st.matrix ∧ st1.wrapperParent = st.wrapperParent
      ∧ st1.isEditingIndex = st.isEditingIndex
      ∧ st1.tweakParallax = st.tweakParallax := by
  by_cases he : isParallaxEnabled st = true
  · obtain ⟨s1, hs1⟩ := scrollPass_ok st.matrix st.windowHeight q st.styles (h he)
    refine ⟨{ st with styles := s1 }, ?_, rfl, rfl, rfl, rfl⟩
    rw [scroll, if_pos he, hs1]
  · refine ⟨st, ?_, rfl, rfl, rfl, rfl⟩
    rw [scroll, if_neg he]

/-- Whenever `scroll` succeeds, the matrix and the wrapper parents are
untouched: `scroll` only writes styles. -/
theorem scroll_preserves (st : PState) (q : ℚ) (st1 : PState)
    (h : scroll st q = .ok st1) :
    st1.matrix = st.matrix ∧ st1.wrapperParent = st.wrapperParent := by
  unfold scroll at h
  by_cases he : isParallaxEnabled st = true
  · rw [if_pos he] at h
    cases hs : scrollPass st.windowHeight q st.styles st.matrix with
    | error e =>
      rw [hs] at h
      cases h
    | ok s =>
      rw [hs] at h
      cases h
      exact ⟨rfl, rfl⟩
  · rw [if_neg he] at h
    cases h
    exact ⟨rfl, rfl⟩

theorem updateMatrixItem_fields (s : ℚ) (m : Measurement) (it : MatrixItem) :
    ((updateMatrixItem s m it).1.originalNode = it.originalNode)
    ∧ ((updateMatrixItem s m it).1.mediaWrapper = it.mediaWrapper)
    ∧ ((updateMatrixItem s m it).1.parallaxItem = it.parallaxItem) := by
  rw [updateMatrixItem]
  split
  · exact ⟨rfl, rfl, rfl⟩
  · exact ⟨rfl, rfl, rfl⟩

theorem updateAllMatrixItems_mem (s : ℚ) (f : NodeId → Measurement) :
    ∀ (items : List MatrixItem), ∀ it1 ∈ (updateAllMatrixItems s f items).1,
      ∃ it ∈ items, it1.originalNode = it.originalNode
        ∧ it1.mediaWrapper = it.mediaWrapper
        ∧ it1.parallaxItem = it.parallaxItem := by
  intro items
  induction items with
  | nil =>
    intro it1 h
    simp [updateAllMatrixItems] at h
  | cons it rest ih =>
    intro it1 h
    rw [updateAllMatrixItems] at h
    rcases List.mem_cons.mp h with h1 | h2
    · subst h1
      exact ⟨it, List.mem_cons_self it rest, updateMatrixItem_fields s (f it.originalNode) it⟩
    · obtain ⟨b, hb, hf⟩ := ih it1 h2
      exact ⟨b, List.mem_cons_of_mem it hb, hf⟩

theorem updateAllMatrixItems_wrapper_map (s : ℚ) (f : NodeId → Measurement) :
    ∀ items : List MatrixItem,
      ((updateAllMatrixItems s f items).1).map (fun it => it.mediaWrapper) =
        items.map (fun it => it.mediaWrapper) := by
  intro items
  induction items with
  | nil => rfl
  | cons it rest ih =>
    rw [updateAllMatrixItems]
    simp only [List.map_cons]
    rw [(updateMatrixItem_fields s (f it.originalNode) it).2.1, ih]

/-- The shared success-and-invariant package for `syncParallax`: on a matrix
of pairwise-distinct wrappers whose items satisfy `itemHyp`, the call
returns normally and afterwards every tracked item's wrapper sits under
exactly one of its two containers. -/
theorem syncParallax_ok (env : Env) (force : JsVal) (st : PState)
    (hdis : st.matrix.Pairwise (fun a b => a.mediaWrapper ≠ b.mediaWrapper))
    (hyp : ∀ it ∈ st.matrix, itemHyp st it) :
    ∃ st1, syncParallax env force st = .ok st1
      ∧ (∀ it ∈ st1.matrix, exactlyOneParent st1 it) := by
  set stW : PState := { st with windowHeight := env.innerHeight } with hstW
  set upd := updateAllMatrixItems env.scrollTop env.measure st.matrix with hupd
  set stM : PState := { stW with matrix := upd.1 } with hstM
  have hypM : ∀ it1 ∈ stM.matrix, itemHyp stM it1 := by
    intro it1 h1
    obtain ⟨it, hmem, ho, hwr, hpi⟩ := updateAllMatrixItems_mem env.scrollTop env.measure
      st.matrix it1 h1
    exact itemHyp_transfer st stM it it1 (by rw [hwr]) rfl rfl rfl rfl ho hpi
      (hyp it hmem)
  have hdisM : stM.matrix.Pairwise (fun a b => a.mediaWrapper ≠ b.mediaWrapper) := by
    have h1 : (st.matrix.map (fun it : MatrixItem => it.mediaWrapper)).Pairwise
        (fun a b => a ≠ b) := List.pairwise_map.mpr hdis
    rw [← updateAllMatrixItems_wrapper_map env.scrollTop env.measure st.matrix] at h1
    exact List.pairwise_map.mp h1
  by_cases hsc : upd.2 = false ∧ force = JsVal.bool false
  · refine ⟨stM, ?_, ?_⟩
    · rw [syncParallax]
      rw [if_pos hsc]
    · intro it1 h1
      obtain ⟨h1a, h1b, _⟩ := hypM it1 h1
      exact exactlyOneParent_of stM it1 h1a h1b
  · obtain ⟨sB, itemsB, heqB, hgoodB, hedB, htwB, _, _, _, _, _⟩ :=
      syncPass_ok stM.matrix stM hdisM hypM
    have hgoodC : ∀ it1 ∈ itemsB, itemGood { sB with matrix := itemsB } it1 := by
      intro it1 h1
      exact itemGood_transfer sB { sB with matrix := itemsB } it1 rfl rfl rfl
        (hgoodB it1 h1)
    by_cases he : isParallaxEnabled { sB with matrix := itemsB } = true
    · have hAll : ∀ it1 ∈ itemsB, it1.parallaxItem.isSome = true :=
        fun it1 h1 => (hgoodC it1 h1).2 he
      obtain ⟨stD, heqD, hmD, hwpD, _, _⟩ :=
        scroll_ok { sB with matrix := itemsB } env.scrollTop (fun _ => hAll)
      refine ⟨stD, ?_, ?_⟩
      · rw [syncParallax, if_neg hsc]
        simp only [syncRest, heqB]
        rw [if_pos he]
        exact heqD
      · intro it1 h1
        rw [show stD.matrix = itemsB from hmD] at h1
        exact exactlyOneParent_congr { sB with matrix := itemsB } stD it1
          (by rw [hwpD]) ((hgoodC it1 h1).1)
    · refine ⟨{ sB with matrix := itemsB }, ?_, ?_⟩
      · rw [syncParallax, if_neg hsc]
        simp only [syncRest, heqB]
        rw [if_neg he]
      · intro it1 h1
        exact (hgoodC it1 h1).1

/-- Claim C2: after any `syncParallax` call on a well-formed tracked set
(pairwise-distinct wrappers; each wrapper under its original node or its
recorded overlay node; recorded overlay nodes and overlay slots distinct
from the original nodes; an overlay slot available when an attached item
needs relocating; a stale item already carrying an overlay node while
parallax is on), every tracked item's `mediaWrapper` is a child of exactly
one of `originalNode` and the overlay node — never both, never neither —
and every later `scroll` call preserves this for as long as the item stays
tracked, since `scroll` only writes styles. -/
theorem syncParallax_wrapper_parent_invariant (env : Env) (force : JsVal)
    (st : PState)
    (hdis : st.matrix.Pairwise (fun a b => a.mediaWrapper ≠ b.mediaWrapper))
    (hyp : ∀ it ∈ st.matrix, itemHyp st it) :
    ∃ st1, syncParallax env force st = .ok st1
      ∧ (∀ it ∈ st1.matrix, exactlyOneParent st1 it)
      ∧ (∀ (q : ℚ) (st2 : PState), scroll st1 q = .ok st2 →
          ∀ it ∈ st2.matrix, exactlyOneParent st2 it) := by
  obtain ⟨st1, heq, hone⟩ := syncParallax_ok env force st hdis hyp
  refine ⟨st1, heq, hone, ?_⟩
  intro q st2 hs it hit
  obtain ⟨hm, hwp⟩ := scroll_preserves st1 q st2 hs
  rw [hm] at hit
  exact exactlyOneParent_congr st1 st2 it (by rw [hwp]) (hone it hit)

def c2Item : MatrixItem :=
  { originalNode := 1, mediaWrapper := 2, mediaElement := 3, focalPoint := 1/2 }

def c2State : PState :=
  { matrix := [c2Item], windowHeight := 800, isEditingIndex := false,
    tweakParallax := "true", styles := fun _ => {},
    wrapperParent := fun k => if k = 2 then 1 else 0,
    hostChildren := [4], attached := [1],
    slotFor := fun k => if k = 1 then some 4 else none, effects := [] }

def c2Env : Env :=
  { measure := fun _ =>
      { rect := { top := 10, right := 110, bottom := 60, left := 10 },
        offsetWidth := 100, offsetHeight := 50 },
    scrollTop := 0, innerHeight := 800 }

/-- Witness for C2: a freshly initialized attached item (wrapper still under
its original node, overlay slot available, parallax enabled). -/
theorem syncParallax_wrapper_parent_invariant_witness :
    (c2State.matrix.Pairwise (fun a b => a.mediaWrapper ≠ b.mediaWrapper))
    ∧ (∀ it ∈ c2State.matrix, itemHyp c2State it)
    ∧ (∃ st1, syncParallax c2Env (JsVal.bool true) c2State = .ok st1
        ∧ (∀ it ∈ st1.matrix, exactlyOneParent st1 it)
        ∧ (∀ (q : ℚ) (st2 : PState), scroll st1 q = .ok st2 →
            ∀ it ∈ st2.matrix, exactlyOneParent st2 it)) :=
  ⟨by decide, by decide,
    syncParallax_wrapper_parent_invariant c2Env (JsVal.bool true) c2State
      (by decide) (by decide)⟩

theorem initParallax_ok : ∀ nodes : List InitNode,
    (∀ n ∈ nodes, n.mediaWrapper.isSome = true ∧ n.mediaElement.isSome = true) →
    ∃ ms, initParallax nodes = .ok ms := by
  intro nodes
  induction nodes with
  | nil =>
    intro _
    exact ⟨[], rfl⟩
  | cons n rest ih =>
    intro h
    obtain ⟨hw, he⟩ := h n (List.mem_cons_self n rest)
    obtain ⟨w, hw1⟩ := Option.isSome_iff_exists.mp hw
    obtain ⟨e, he1⟩ := Option.isSome_iff_exists.mp he
    obtain ⟨ms, hms⟩ := ih (fun b hb => h b (List.mem_cons_of_mem n hb))
    have hitem : initMatrixItem n = .ok
        { originalNode := n.id, mediaWrapper := w, mediaElement := e,
          focalPoint := n.focalAttr.getD (1 / 2) } := by
      rw [initMatrixItem, hw1, he1]
    refine ⟨({ originalNode := n.id
               mediaWrapper := w
               mediaElement := e
               focalPoint := n.focalAttr.getD (1 / 2) } : MatrixItem) :: ms, ?_⟩
    simp only [initParallax, hitem, hms]

theorem destroy_twice_ok (ls : LifecycleState) :
    ∃ ls1 ls2, destroy ls = .ok ls1 ∧ destroy ls1 = .ok ls2 := by
  by_cases hd : ls.darwin = true
  · refine ⟨{ ls with
        darwin := false
        listeners := { ls.listeners with
          scrollHandler := false, indexEditEnabled := false,
          indexEditDisabled := false, indexEditDeleted := false,
          indexEditReorder := false } },
      { ls with
        darwin := false
        listeners := { ls.listeners with
          scrollHandler := false, indexEditEnabled := false,
          indexEditDisabled := false, indexEditDeleted := false,
          indexEditReorder := false } }, ?_, rfl⟩
    rw [destroy, if_pos hd, darwinDestroyCall, if_pos hd]
  · refine ⟨{ ls with
        listeners := { ls.listeners with
          scrollHandler := false, indexEditEnabled := false,
          indexEditDisabled := false, indexEditDeleted := false,
          indexEditReorder := false } },
      { ls with
        listeners := { ls.listeners with
          scrollHandler := false, indexEditEnabled := false,
          indexEditDisabled := false, indexEditDeleted := false,
          indexEditReorder := false } }, ?_, ?_⟩
    · rw [destroy, if_neg hd]
    · rw [destroy, if_neg hd]

/-- Claim C4, corrected: the module's operations do not throw only on DOM
configurations providing the descendants they expect.  Initialization
succeeds when every original node has a media wrapper with a media element
(and throws a `TypeError` otherwise — see the counterexample);
`syncParallax` succeeds on tracked sets satisfying `itemHyp` (in particular
an overlay slot must exist for every attached item that needs relocating
while parallax is enabled); `scroll` succeeds when every item has an overlay
node recorded or parallax is disabled; `destroy` never throws, twice in a
row. -/
theorem operations_no_throw_on_wellformed_dom :
    (∀ nodes : List InitNode,
        (∀ n ∈ nodes, n.mediaWrapper.isSome = true ∧ n.mediaElement.isSome = true) →
        ∃ ms, initParallax nodes = .ok ms)
    ∧ (∀ (env : Env) (force : JsVal) (st : PState),
        st.matrix.Pairwise (fun a b => a.mediaWrapper ≠ b.mediaWrapper) →
        (∀ it ∈ st.matrix, itemHyp st it) →
        ∃ st1, syncParallax env force st = .ok st1)
    ∧ (∀ (st : PState) (q : ℚ),
        (isParallaxEnabled st = true → ∀ it ∈ st.matrix, it.parallaxItem.isSome = true) →
        ∃ st1, scroll st q = .ok st1)
    ∧ (∀ ls : LifecycleState, ∃ ls1 ls2, destroy ls = .ok ls1 ∧ destroy ls1 = .ok ls2) := by
  refine ⟨initParallax_ok, ?_, ?_, destroy_twice_ok⟩
  · intro env force st hdis hyp
    obtain ⟨st1, heq, _⟩ := syncParallax_ok env force st hdis hyp
    exact ⟨st1, heq⟩
  · intro st q h
    obtain ⟨st1, heq, _⟩ := scroll_ok st q h
    exact ⟨st1, heq⟩

def c4GoodNode : InitNode :=
  { id := 1, mediaWrapper := some 2, mediaElement := some 3, focalAttr := none }

/-- Witness for the corrected C4 at a concrete well-formed configuration. -/
theorem operations_no_throw_witness :
    (∀ n ∈ [c4GoodNode], n.mediaWrapper.isSome = true ∧ n.mediaElement.isSome = true)
    ∧ (∃ ms, initParallax [c4GoodNode] = .ok ms) :=
  ⟨by decide, operations_no_throw_on_wellformed_dom.1 [c4GoodNode] (by decide)⟩

end Parallax
